import Mathlib

/-!
Verification of the retrieval-pipeline core of the Ottawa RAG chatbot
repository.  The Python sources are shallowly embedded: each definition
below translates one function of the repository (src/llm_interface.py,
src/rag_pipeline.py, src/embeddings.py, src/data_processor.py).
Floating-point similarity scores are modelled as rationals; Python
exceptions raised by external collaborators (the Groq backend, the
sentence-transformer model, the on-disk cache, pandas) are modelled as
explicit Except-valued parameters, and the try/except structure of the
source is translated faithfully.
-/

namespace OttawaRag

/-! ## LLM interface (src/llm_interface.py) -/

/-- Boolean substring test on character lists: needle occurs inside hay.
Models the Python membership test (keyword in query_lower). -/
def list_contains_sub (needle : List Char) : List Char → Bool
  | [] => needle.isEmpty
  | c :: rest => needle.isPrefixOf (c :: rest) || list_contains_sub needle rest

/-- Models the Python expression (needle in hay) on strings. -/
def str_contains (hay needle : String) : Bool :=
  list_contains_sub needle.toList hay.toList

/-- The fixed topic-to-fallback table of LLMInterface._get_fallback_response
(fallback_responses dict, iterated in insertion order as in Python). -/
def fallback_responses : List (String × String) :=
  [("marriage", "For marriage license information, please visit ottawa.ca or call 311."),
   ("parking", "For parking information and regulations, please visit ottawa.ca or call 311."),
   ("garbage", "For waste collection information, please visit ottawa.ca or call 311."),
   ("fire", "For fire safety information, please visit ottawa.ca or contact Ottawa Fire Services."),
   ("business", "For business licensing information, please visit ottawa.ca or call 311.")]

/-- Prefix prepended to a matched fallback entry. -/
def tech_difficulties_lead : String :=
  "I apologize, but I\x27m experiencing technical difficulties. "

/-- The generic contact-support fallback returned when no keyword of the
table occurs in the query. -/
def generic_fallback : String :=
  "I apologize, but I\x27m unable to process your request at the moment. Please visit ottawa.ca or call 311 for assistance with Ottawa city services."

/-- Models Python str.lower(): lower-case character by character. -/
def to_lower_str (s : String) : String :=
  String.mk (s.toList.map Char.toLower)

/-- Translation of LLMInterface._get_fallback_response: lower-case the
query, return the first table entry whose keyword occurs in it, and the
generic message when none does. -/
def get_fallback_response (query : String) : String :=
  match fallback_responses.find? (fun kv => str_contains (to_lower_str query) kv.1) with
  | some kv => tech_difficulties_lead ++ kv.2
  | none => generic_fallback

/-- Models the api-key resolution in LLMInterface.__init__:
self.api_key = api_key or os.getenv("GROQ_API_KEY").  A Python falsy
value (None or the empty string) falls through to the environment. -/
def effective_api_key : Option String → Option String → Option String
  | some k, env => if k = "" then env else some k
  | none, env => env

/-- Translation of LLMInterface._initialize_client.  The groq_ok argument
abstracts whether the groq package imports and its constructor succeeds;
the result says whether self.client ends up set (true) or None (false).
With a falsy effective key the client is always None. -/
def init_client (api_key env_key : Option String) (groq_ok : Bool) : Bool :=
  match effective_api_key api_key env_key with
  | none => false
  | some k => if k = "" then false else groq_ok

/-- Translation of the retry loop of LLMInterface.generate_response
(for attempt in range(max_retries)).  The backend argument gives the
outcome of the attempt-th chat-completion call; fb is the fallback
string for this query.  The result triple is: the returned string
(none models Python falling off the end of the loop and returning None),
the number of backend calls made, and the list of back-off sleep
durations (time.sleep(2 ** attempt)) in order.  The fuel argument is
the number of loop iterations left; the loop starts with
fuel = max_retries and attempt = 0. -/
def retry_loop (backend : Nat → Except String String) (fb : String)
    (max_retries : Nat) : Nat → Nat → Option String × Nat × List Nat
  | _, 0 => (none, 0, [])
  | attempt, fuel + 1 =>
    match backend attempt with
    | Except.ok s => (some s.trim, 1, [])
    | Except.error _ =>
      if attempt = max_retries - 1 then
        (some fb, 1, [])
      else
        let r := retry_loop backend fb max_retries (attempt + 1) fuel
        (r.1, r.2.1 + 1, 2 ^ attempt :: r.2.2)

/-- Translation of LLMInterface.generate_response.  has_client models
whether self.client is set; the prompt-building branch is pure and
cannot fail, so the body reduces to the client check followed by the
retry loop.  Returns the answer (none only when max_retries = 0, where
Python returns None), the number of backend calls, and the back-off
sleeps. -/
def llm_generate_response (has_client : Bool) (backend : Nat → Except String String)
    (query : String) (max_retries : Nat) : Option String × Nat × List Nat :=
  if !has_client then
    (some (get_fallback_response query), 0, [])
  else
    retry_loop backend (get_fallback_response query) max_retries 0 max_retries

/-! ## Retrieval orchestrator (src/rag_pipeline.py) -/

/-- Metadata attached to an indexed chunk by VectorStore.search (the
subset stored by OttawaRAGPipeline.initialize_vector_database). -/
structure ChunkMeta where
  url : String
  source_file : String
  chunk_index : Nat
deriving DecidableEq

/-- One formatted result of VectorStore.search: document text, metadata
and the cosine-derived similarity score (modelled as a rational). -/
structure SearchResult where
  document : String
  metadata : ChunkMeta
  similarity : ℚ
deriving DecidableEq

/-- One entry of the sources list built by
OttawaRAGPipeline.generate_response. -/
structure SourceRef where
  url : String
  source_file : String
  similarity : ℚ
deriving DecidableEq

/-- The response dictionary returned by the pipeline.  Keys that are
present only on some code paths (chunks_used, error, and the metadata
added by answer_question) are modelled as options; the answer is an
option because the Python function can return None when the retry loop
runs zero iterations.  The wall-clock timestamp added by
answer_question is not modelled. -/
structure Response where
  answer : Option String
  sources : List SourceRef
  confidence : ℚ
  chunks_used : Option Nat
  error : Option String
  query : Option String
  pipeline_version : Option String
  total_documents : Option Nat
  total_chunks : Option Nat
deriving DecidableEq

/-- The threshold filter loop in OttawaRAGPipeline.search_relevant_context:
relevant_chunks starts empty and each result whose similarity is at
least the threshold is appended in order. -/
def relevant_filter_loop (results : List SearchResult) (thr : ℚ) : List SearchResult :=
  results.foldl (fun acc r => if thr ≤ r.similarity then acc ++ [r] else acc) []

/-- Translation of OttawaRAGPipeline.search_relevant_context.  The
is_init flag models self.is_initialized; embed_outcome models the call
embedding_manager.generate_embeddings([query]) which re-raises on
failure and is caught by the surrounding try (returning []); results
models the list returned by vector_store.search (that method catches
its own exceptions and returns a list). -/
def search_relevant_context (is_init : Bool) (embed_outcome : Except String Unit)
    (results : List SearchResult) (thr : ℚ) : List SearchResult :=
  if !is_init then []
  else
    match embed_outcome with
    | Except.error _ => []
    | Except.ok _ => relevant_filter_loop results thr

/-- The fixed no-information answer of OttawaRAGPipeline.generate_response. -/
def no_info_answer : String :=
  "I couldn\x27t find relevant information about that topic in my Ottawa database."

/-- The answer prefix of the except branch of
OttawaRAGPipeline.generate_response. -/
def gen_error_lead : String :=
  "I encountered an error processing your question: "

/-- The answer of the except branch of OttawaRAGPipeline.answer_question. -/
def unexpected_error_answer : String :=
  "I encountered an unexpected error. Please try rephrasing your question."

/-- The response returned by generate_response when no context chunks
survive the threshold filter. -/
def no_info_response : Response :=
  { answer := some no_info_answer
    sources := []
    confidence := 0
    chunks_used := none
    error := none
    query := none
    pipeline_version := none
    total_documents := none
    total_chunks := none }

/-- Models np.mean on a list of rationals (sum divided by length). -/
def np_mean (xs : List ℚ) : ℚ :=
  xs.sum / xs.length

/-- Translation of OttawaRAGPipeline.generate_response.  gen_exn models
a runtime exception raised inside the try block while formatting the
context (for example a missing dictionary key), caught by the except
branch; has_client and backend parameterize the call
llm_interface.generate_response(query, context), which uses the default
max_retries = 3.  The result carries the response, the number of
backend calls made, and the back-off sleeps. -/
def rag_generate_response (gen_exn : Except String Unit) (has_client : Bool)
    (backend : Nat → Except String String) (query : String)
    (context_chunks : List SearchResult) : Response × Nat × List Nat :=
  if context_chunks.isEmpty then
    (no_info_response, 0, [])
  else
    match gen_exn with
    | Except.error e =>
      ({ no_info_response with
          answer := some (gen_error_lead ++ e)
          confidence := 0 }, 0, [])
    | Except.ok _ =>
      let r := llm_generate_response has_client backend query 3
      ({ answer := r.1
         sources := context_chunks.map (fun c =>
           { url := c.metadata.url
             source_file := c.metadata.source_file
             similarity := c.similarity })
         confidence := np_mean (context_chunks.map (fun c => c.similarity))
         chunks_used := some context_chunks.length
         error := none
         query := none
         pipeline_version := none
         total_documents := none
         total_chunks := none }, r.2.1, r.2.2)

/-- Everything answer_question depends on for one query: the pipeline
state and the outcomes of the external calls made along the way.
meta_exn models an exception raised while attaching pipeline metadata
(the pd.Timestamp.now() call), caught by the outer except of
answer_question. -/
structure QueryEnv where
  is_init : Bool
  embed_outcome : Except String Unit
  search_results : List SearchResult
  gen_exn : Except String Unit
  has_client : Bool
  backend : Nat → Except String String
  meta_exn : Except String Unit
  total_documents : Nat
  total_chunks : Nat

/-- Translation of OttawaRAGPipeline.answer_question: retrieve context
with the default threshold 0.1 and top_k 5, generate the response, then
attach pipeline metadata; any exception reaching the outer handler is
converted into the unexpected-error response carrying the error string
and zero confidence. -/
def answer_question (env : QueryEnv) (question : String) : Response × Nat × List Nat :=
  let chunks := search_relevant_context env.is_init env.embed_outcome
    env.search_results (1 / 10)
  let r := rag_generate_response env.gen_exn env.has_client env.backend question chunks
  match env.meta_exn with
  | Except.error e =>
    ({ answer := some unexpected_error_answer
       sources := []
       confidence := 0
       chunks_used := none
       error := some e
       query := none
       pipeline_version := none
       total_documents := none
       total_chunks := none }, r.2.1, r.2.2)
  | Except.ok _ =>
    ({ r.1 with
        query := some question
        pipeline_version := some "1.0.0"
        total_documents := some env.total_documents
        total_chunks := some env.total_chunks }, r.2.1, r.2.2)

/-- A response carries an error description when its error field is set
or its answer is one of the error-reporting answer strings produced by
the pipeline. -/
def carries_error_description (r : Response) : Bool :=
  r.error.isSome ||
    (match r.answer with
     | some a => gen_error_lead.toList.isPrefixOf a.toList || a == unexpected_error_answer
     | none => false)

/-! ## Embedding cache (src/embeddings.py) -/

/-- Translation of EmbeddingManager._generate_cache_key: a hex digest of
the order-sensitive concatenation of the texts (joined with a pipe)
followed by a pipe and the model name, truncated to 16 characters.  The
hash_hex parameter abstracts hashlib.sha256(...).hexdigest(). -/
def generate_cache_key (hash_hex : String → String) (texts : List String)
    (model_name : String) : String :=
  String.mk ((hash_hex (String.intercalate "|" texts ++ "|" ++ model_name)).toList.take 16)

/-- One pickled cache entry, as written by EmbeddingManager._save_to_cache. -/
structure CacheEntry where
  model_name : String
  text_count : Nat
  embeddings : List (List ℚ)
  embedding_dimension : Nat
deriving DecidableEq

/-- Translation of EmbeddingManager._load_from_cache.  The store
parameter models the cache directory (a lookup from cache key to the
entry unpickled from embeddings_(key).pkl, none when the file is
missing or unreadable).  The verification step of the source checks the
stored model name and the stored text count; it does not inspect the
stored embedding dimension. -/
def load_from_cache (hash_hex : String → String) (store : String → Option CacheEntry)
    (model_name : String) (texts : List String) : Option (List (List ℚ)) :=
  let cache_key := generate_cache_key hash_hex texts model_name
  match store cache_key with
  | none => none
  | some cached_data =>
    if cached_data.model_name = model_name ∧ cached_data.text_count = texts.length then
      some cached_data.embeddings
    else
      none

/-- Translation of EmbeddingManager._save_to_cache: the key written and
the entry stored under it. -/
def save_to_cache (hash_hex : String → String) (model_name : String)
    (embedding_dimension : Nat) (texts : List String) (embeddings : List (List ℚ)) :
    String × CacheEntry :=
  (generate_cache_key hash_hex texts model_name,
   { model_name := model_name
     text_count := texts.length
     embeddings := embeddings
     embedding_dimension := embedding_dimension })

/-- The batching loop of EmbeddingManager.generate_embeddings:
for i in range(0, len(texts), batch_size) take texts[i : i+batch_size].
Empty output for batch size zero, where Python range raises. -/
def split_into_batches (batch_size : Nat) (l : List α) : List (List α) :=
  match l with
  | [] => []
  | x :: xs =>
    if batch_size = 0 then []
    else
      (x :: xs).take batch_size :: split_into_batches batch_size ((x :: xs).drop batch_size)
termination_by l.length
decreasing_by
  simp only [List.length_drop, List.length_cons]
  omega

/-- Counts of the effectful operations performed by one call to
EmbeddingManager.generate_embeddings: model.encode calls, cache reads
and cache writes. -/
structure EmbedTrace where
  encode_calls : Nat
  cache_reads : Nat
  cache_writes : Nat
deriving DecidableEq

/-- Translation of EmbeddingManager.generate_embeddings.  The encode
parameter models model.encode on one sub-batch; cache_enabled models
self.cache_dir being set; store models the cache directory contents.
An empty input batch returns an empty array before any cache or model
access.  Otherwise the cache is consulted (when enabled and requested),
a hit is returned verbatim, and on a miss the input is encoded in
sub-batches of batch_size, stacked, and written back to the cache. -/
def generate_embeddings (model_name : String) (batch_size : Nat)
    (hash_hex : String → String) (cache_enabled : Bool)
    (store : String → Option CacheEntry) (encode : List String → List (List ℚ))
    (use_cache : Bool) (texts : List String) : List (List ℚ) × EmbedTrace :=
  if texts.isEmpty then
    ([], { encode_calls := 0, cache_reads := 0, cache_writes := 0 })
  else
    let cacheable := use_cache && cache_enabled
    let hit := if cacheable then load_from_cache hash_hex store model_name texts else none
    match hit with
    | some cached => (cached, { encode_calls := 0, cache_reads := 1, cache_writes := 0 })
    | none =>
      let batches := split_into_batches batch_size texts
      let embeddings := (batches.map encode).flatten
      (embeddings,
       { encode_calls := batches.length
         cache_reads := if cacheable then 1 else 0
         cache_writes := if cacheable then 1 else 0 })

/-! ## Chunk creation (src/data_processor.py) -/

/-- Zero-padded decimal rendering used for chunk and document ids
(Python format chunk_(counter:06d)). -/
def zero_pad6 (n : Nat) : String :=
  let s := toString n
  String.mk (List.replicate (6 - s.length) '0') ++ s

/-- One chunk record as built by DataProcessor.create_chunks.  The
fields irrelevant to the claims under study (denormalized document
metadata, keywords, timestamps) are omitted. -/
structure ChunkRec where
  id : String
  document_id : String
  chunk_index : Nat
  content : String
  content_length : Nat
deriving DecidableEq

/-- The inner loop of DataProcessor.create_chunks over the candidate
chunks of one document: chunk_idx enumerates the splitter output
(including candidates that are then discarded for being shorter than
min_chunk_length), while the global chunk_id_counter advances only on
retained chunks.  Returns the retained chunk records and the updated
counter. -/
def process_candidates (min_len doc_idx : Nat) :
    Nat → Nat → List String → List ChunkRec × Nat
  | _, counter, [] => ([], counter)
  | chunk_idx, counter, t :: rest =>
    if min_len ≤ t.length then
      let c : ChunkRec :=
        { id := "chunk_" ++ zero_pad6 counter
          document_id := "doc_" ++ zero_pad6 doc_idx
          chunk_index := chunk_idx
          content := t
          content_length := t.length }
      let r := process_candidates min_len doc_idx (chunk_idx + 1) (counter + 1) rest
      (c :: r.1, r.2)
    else
      process_candidates min_len doc_idx (chunk_idx + 1) counter rest

/-- The document loop of DataProcessor.create_chunks, threading the
document index and the global chunk counter. -/
def create_chunks_aux (clean : String → String) (split : String → List String)
    (min_len : Nat) : Nat → Nat → List String → List ChunkRec
  | _, _, [] => []
  | doc_idx, counter, d :: rest =>
    let cleaned := clean d
    if cleaned.length < min_len then
      create_chunks_aux clean split min_len (doc_idx + 1) counter rest
    else
      let r := process_candidates min_len doc_idx 0 counter (split cleaned)
      r.1 ++ create_chunks_aux clean split min_len (doc_idx + 1) r.2 rest

/-- Translation of DataProcessor.create_chunks over a list of document
contents.  The text-cleaning step (clean_text) and the langchain
RecursiveCharacterTextSplitter (self.text_splitter.split_text) are
passed as function parameters: the claim under study is about the
numbering and filtering applied to their output.  A document whose
cleaned content is shorter than min_chunk_length is skipped whole. -/
def create_chunks (clean : String → String) (split : String → List String)
    (min_len : Nat) (documents : List String) : List ChunkRec :=
  create_chunks_aux clean split min_len 0 0 documents

/-- The chunk_index values that create_chunks retains for one document,
expressed directly: the position of every candidate of length at least
min_len, counting positions from i over the whole splitter output. -/
def selected_from (min_len : Nat) : Nat → List String → List Nat
  | _, [] => []
  | i, t :: rest =>
    if min_len ≤ t.length then i :: selected_from min_len (i + 1) rest
    else selected_from min_len (i + 1) rest

/-! ## Concrete instances used by counterexamples and witnesses -/

/-- The three retrieved results of the threshold-filtering scenario of
the spec: similarities 0.05, 0.3 and 0.6. -/
def c2_results : List SearchResult :=
  [{ document := "passage one",
     metadata := { url := "https://ottawa.ca/1", source_file := "p1.txt", chunk_index := 0 },
     similarity := 1 / 20 },
   { document := "passage two",
     metadata := { url := "https://ottawa.ca/2", source_file := "p2.txt", chunk_index := 1 },
     similarity := 3 / 10 },
   { document := "passage three",
     metadata := { url := "https://ottawa.ca/3", source_file := "p3.txt", chunk_index := 2 },
     similarity := 3 / 5 }]

/-- A single retrieved result whose similarity falls below the default
threshold 0.1. -/
def c4_results : List SearchResult :=
  [{ document := "barely related passage",
     metadata := { url := "https://ottawa.ca/4", source_file := "p4.txt", chunk_index := 0 },
     similarity := 1 / 20 }]

/-- Two retained chunks with similarities 0.5 and 0.25. -/
def c3_chunks : List SearchResult :=
  [{ document := "chunk a",
     metadata := { url := "https://ottawa.ca/a", source_file := "a.txt", chunk_index := 0 },
     similarity := 1 / 2 },
   { document := "chunk b",
     metadata := { url := "https://ottawa.ca/b", source_file := "b.txt", chunk_index := 1 },
     similarity := 1 / 4 }]

/-- A query environment in which the query-embedding call raises while
every other collaborator behaves: the search stage fails for this
query. -/
def c1_env : QueryEnv :=
  { is_init := true
    embed_outcome := Except.error "embedding model failure"
    search_results :=
      [{ document := "marriage license info",
         metadata := { url := "https://ottawa.ca/m", source_file := "m.txt", chunk_index := 0 },
         similarity := 9 / 10 }]
    gen_exn := Except.ok ()
    has_client := true
    backend := fun _ => Except.ok "generated answer"
    meta_exn := Except.ok ()
    total_documents := 133
    total_chunks := 1410 }

/-- A query environment whose only failure is in the metadata-attachment
step at the orchestrator boundary. -/
def c1_env_meta : QueryEnv :=
  { c1_env with
      embed_outcome := Except.ok ()
      meta_exn := Except.error "pipeline metadata failure" }

/-- A cache entry whose stored model name and text count match the
current configuration but whose stored vector dimension does not. -/
def c6_entry : CacheEntry :=
  { model_name := "all-MiniLM-L6-v2"
    text_count := 1
    embeddings := [[1, 2]]
    embedding_dimension := 999 }

/-- A concrete stand-in for the hex digest function. -/
def c6_hash : String → String := fun _ => "0123456789abcdef0123"

/-- A cache directory holding exactly the mismatching entry under the
key the manager derives for the batch. -/
def c6_store : String → Option CacheEntry := fun k =>
  if k = generate_cache_key c6_hash ["hello ottawa"] "all-MiniLM-L6-v2" then
    some c6_entry
  else
    none

/-- A splitter output whose first candidate falls below the minimum
chunk length while the second does not. -/
def demo_split : String → List String := fun _ => ["ab", "abcd"]

/-! ## Helper lemmas -/

/-- The append-accumulating fold of search_relevant_context is an
ordinary filter. -/
theorem relevant_filter_loop_eq (results : List SearchResult) (thr : ℚ) :
    relevant_filter_loop results thr
      = results.filter (fun r => decide (thr ≤ r.similarity)) := by
  have h : ∀ (rs acc : List SearchResult),
      rs.foldl (fun acc r => if thr ≤ r.similarity then acc ++ [r] else acc) acc
        = acc ++ rs.filter (fun r => decide (thr ≤ r.similarity)) := by
    intro rs
    induction rs with
    | nil => intro acc; simp
    | cons r rest ih =>
      intro acc
      by_cases hr : thr ≤ r.similarity
      · simp [List.foldl_cons, hr, ih, List.filter_cons]
      · simp [List.foldl_cons, hr, ih, List.filter_cons]
  simpa using h results []

/-- The retry loop returns a result whenever it has at least one
iteration to run. -/
theorem retry_loop_isSome (backend : Nat → Except String String) (fb : String)
    (max_retries : Nat) :
    ∀ (fuel attempt : Nat), 1 ≤ fuel → attempt + fuel = max_retries →
      (retry_loop backend fb max_retries attempt fuel).1.isSome = true := by
  intro fuel
  induction fuel with
  | zero => intro attempt h; omega
  | succ f ih =>
    intro attempt _ hsum
    cases hbe : backend attempt with
    | ok s => simp [retry_loop, hbe]
    | error e =>
      by_cases hlast : attempt = max_retries - 1
      · simp only [retry_loop, hbe]
        rw [if_pos hlast]
        rfl
      · have hf : 1 ≤ f := by omega
        have hrec := ih (attempt + 1) hf (by omega)
        simp only [retry_loop, hbe]
        rw [if_neg hlast]
        simpa using hrec

/-- When every backend attempt raises, the retry loop performs one call
per remaining iteration, sleeps the exponentially growing durations
between attempts, and ends with the fallback string. -/
theorem retry_loop_all_fail (backend : Nat → Except String String) (fb : String)
    (max_retries : Nat) (hb : ∀ n, ∃ e, backend n = Except.error e) :
    ∀ (fuel attempt : Nat), 1 ≤ fuel → attempt + fuel = max_retries →
      retry_loop backend fb max_retries attempt fuel
        = (some fb, fuel, (List.range' attempt (fuel - 1)).map (fun a => 2 ^ a)) := by
  intro fuel
  induction fuel with
  | zero => intro attempt h; omega
  | succ f ih =>
    intro attempt _ hsum
    obtain ⟨e, he⟩ := hb attempt
    cases f with
    | zero =>
      have hlast : attempt = max_retries - 1 := by omega
      simp only [retry_loop, he]
      rw [if_pos hlast]
      simp [List.range']
    | succ f' =>
      have hlast : ¬ (attempt = max_retries - 1) := by omega
      have hrec := ih (attempt + 1) (by omega) (by omega)
      have hstep : retry_loop backend fb max_retries attempt (f' + 1 + 1)
          = ((retry_loop backend fb max_retries (attempt + 1) (f' + 1)).1,
             (retry_loop backend fb max_retries (attempt + 1) (f' + 1)).2.1 + 1,
             2 ^ attempt :: (retry_loop backend fb max_retries (attempt + 1) (f' + 1)).2.2) := by
        conv_lhs => rw [retry_loop.eq_def]
        simp only [he]
        rw [if_neg hlast]
      rw [hstep, hrec]
      simp [List.range']

/-- The LLM interface returns a string (never Python None) whenever the
retry bound is positive. -/
theorem llm_generate_response_isSome (has_client : Bool)
    (backend : Nat → Except String String) (query : String)
    (max_retries : Nat) (h : 1 ≤ max_retries) :
    (llm_generate_response has_client backend query max_retries).1.isSome = true := by
  cases has_client with
  | false => rfl
  | true =>
    simp only [llm_generate_response, Bool.not_true, Bool.false_eq_true, if_false]
    exact retry_loop_isSome backend (get_fallback_response query) max_retries
      max_retries 0 h (by omega)

/-- Every branch of generate_response produces an answer string. -/
theorem rag_generate_response_isSome (gen_exn : Except String Unit) (has_client : Bool)
    (backend : Nat → Except String String) (query : String)
    (context_chunks : List SearchResult) :
    ((rag_generate_response gen_exn has_client backend query context_chunks).1.answer).isSome
      = true := by
  cases hc : context_chunks with
  | nil => rfl
  | cons c rest =>
    cases gen_exn with
    | error e => rfl
    | ok u =>
      simp only [rag_generate_response, List.isEmpty_cons, if_false]
      exact llm_generate_response_isSome has_client backend query 3 (by omega)

/-- The retained chunk indices of one document are exactly the
selected_from positions of its splitter candidates. -/
theorem process_candidates_indices (min_len doc_idx : Nat) :
    ∀ (cands : List String) (chunk_idx counter : Nat),
      (process_candidates min_len doc_idx chunk_idx counter cands).1.map
          (fun c => c.chunk_index)
        = selected_from min_len chunk_idx cands := by
  intro cands
  induction cands with
  | nil => intro i c; rfl
  | cons t rest ih =>
    intro i c
    by_cases h : min_len ≤ t.length
    · simp [process_candidates, selected_from, h, ih]
    · simp [process_candidates, selected_from, h, ih]

/-- Every selected position is at least the starting position. -/
theorem selected_from_ge (min_len : Nat) :
    ∀ (cands : List String) (i j : Nat), j ∈ selected_from min_len i cands → i ≤ j := by
  intro cands
  induction cands with
  | nil => intro i j h; simp [selected_from] at h
  | cons t rest ih =>
    intro i j h
    by_cases ht : min_len ≤ t.length
    · simp only [selected_from, if_pos ht, List.mem_cons] at h
      cases h with
      | inl he => omega
      | inr hm => have := ih (i + 1) j hm; omega
    · simp only [selected_from, if_neg ht] at h
      have := ih (i + 1) j h
      omega

/-- The selected positions are strictly increasing. -/
theorem selected_from_chain (min_len : Nat) :
    ∀ (cands : List String) (i : Nat),
      List.Chain' (· < ·) (selected_from min_len i cands) := by
  intro cands
  induction cands with
  | nil => intro i; simp [selected_from]
  | cons t rest ih =>
    intro i
    by_cases ht : min_len ≤ t.length
    · simp only [selected_from, if_pos ht]
      rw [List.chain'_cons']
      refine ⟨?_, ih (i + 1)⟩
      intro y hy
      have hmem : y ∈ selected_from min_len (i + 1) rest := List.mem_of_mem_head? hy
      have := selected_from_ge min_len rest (i + 1) y hmem
      omega
    · simp only [selected_from, if_neg ht]
      exact ih (i + 1)

/-- When no candidate is discarded the selected positions are the
contiguous range starting at the initial position. -/
theorem selected_from_all (min_len : Nat) :
    ∀ (cands : List String) (i : Nat), (∀ t ∈ cands, min_len ≤ t.length) →
      selected_from min_len i cands = List.range' i cands.length := by
  intro cands
  induction cands with
  | nil => intro i h; rfl
  | cons t rest ih =>
    intro i h
    have ht : min_len ≤ t.length := h t (List.mem_cons_self t rest)
    have hrest : ∀ u ∈ rest, min_len ≤ u.length := fun u hu => h u (List.mem_cons_of_mem t hu)
    simp only [selected_from, if_pos ht, List.length_cons, ih (i + 1) hrest]
    simp [List.range']

/-- A copy of the middle result of c2_results (similarity 0.3). -/
def c2_r2 : SearchResult :=
  { document := "passage two"
    metadata := { url := "https://ottawa.ca/2", source_file := "p2.txt", chunk_index := 1 }
    similarity := 3 / 10 }

/-! ## Claims -/

/-- C2: for every list of search results and every threshold, the
threshold filter of search_relevant_context retains exactly the results
whose similarity is not below the threshold, preserving their order:
the output is the order-preserving filter of the input (hence a sublist
whose members are characterized by the threshold test); in particular,
with similarities 0.05, 0.3, 0.6 and threshold 0.1 exactly the results
scored 0.3 and 0.6 are retained, in order. -/
theorem C2_threshold_filter :
    (∀ (results : List SearchResult) (thr : ℚ),
      search_relevant_context true (Except.ok ()) results thr
          = results.filter (fun r => decide (thr ≤ r.similarity))
        ∧ List.Sublist (search_relevant_context true (Except.ok ()) results thr) results
        ∧ ∀ r, (r ∈ search_relevant_context true (Except.ok ()) results thr
            ↔ r ∈ results ∧ thr ≤ r.similarity))
    ∧ (search_relevant_context true (Except.ok ()) c2_results (1 / 10)).map
        (fun r => r.similarity) = [3 / 10, 3 / 5] := by
  have hmain : ∀ (results : List SearchResult) (thr : ℚ),
      search_relevant_context true (Except.ok ()) results thr
        = results.filter (fun r => decide (thr ≤ r.similarity)) := by
    intro results thr
    exact relevant_filter_loop_eq results thr
  refine ⟨fun results thr => ⟨hmain results thr, ?_, ?_⟩, ?_⟩
  · rw [hmain]
    exact List.filter_sublist results
  · intro r
    rw [hmain, List.mem_filter]
    simp
  · rw [hmain]
    norm_num [c2_results]

/-- Witness for C2: the result scored 0.3 is retained at threshold 0.1. -/
theorem C2_threshold_filter_witness :
    c2_r2 ∈ search_relevant_context true (Except.ok ()) c2_results (1 / 10) :=
  ((C2_threshold_filter.1 c2_results (1 / 10)).2.2 c2_r2).2
    ⟨by simp [c2_results, c2_r2], by norm_num [c2_r2]⟩

/-- C3: for every query and non-empty list of retained context chunks,
the confidence of the response of generate_response is the arithmetic
mean of their similarity scores (stated both as the quotient and in the
division-free product form), and for an empty chunk list it is 0. -/
theorem C3_confidence_mean (has_client : Bool) (backend : Nat → Except String String)
    (query : String) (chunks : List SearchResult) :
    (chunks ≠ [] →
       (rag_generate_response (Except.ok ()) has_client backend query chunks).1.confidence
           = (chunks.map (fun c => c.similarity)).sum / (chunks.length : ℚ)
         ∧ (rag_generate_response (Except.ok ()) has_client backend query chunks).1.confidence
             * (chunks.length : ℚ)
           = (chunks.map (fun c => c.similarity)).sum)
    ∧ (chunks = [] →
       (rag_generate_response (Except.ok ()) has_client backend query chunks).1.confidence
         = 0) := by
  constructor
  · intro hne
    have hempty : chunks.isEmpty = false := by
      cases chunks with
      | nil => exact absurd rfl hne
      | cons a l => rfl
    have hlen : ((chunks.length : ℚ)) ≠ 0 := by
      have hl : chunks.length ≠ 0 := by
        cases chunks with
        | nil => exact absurd rfl hne
        | cons a l => simp
      exact_mod_cast hl
    have hconf :
        (rag_generate_response (Except.ok ()) has_client backend query chunks).1.confidence
          = (chunks.map (fun c => c.similarity)).sum / (chunks.length : ℚ) := by
      simp [rag_generate_response, hempty, np_mean]
    refine ⟨hconf, ?_⟩
    rw [hconf]
    exact div_mul_cancel₀ _ hlen
  · intro he
    subst he
    rfl

/-- Witness for C3: with similarities 0.5 and 0.25 the confidence times
the chunk count equals the similarity sum (the mean is 0.375). -/
theorem C3_confidence_mean_witness :
    (rag_generate_response (Except.ok ()) true (fun _ => Except.ok "a") "q" c3_chunks).1.confidence
        * ((c3_chunks.length : ℚ))
      = (c3_chunks.map (fun c => c.similarity)).sum :=
  ((C3_confidence_mean true (fun _ => Except.ok "a") "q" c3_chunks).1 (by simp [c3_chunks])).2

/-- C4: when no passage passes the relevance threshold,
generate_response returns the fixed no-information response (fixed
answer, empty sources, zero confidence) with zero backend calls, and
its result does not depend on the generation backend at all. -/
theorem C4_no_context_response (gen_exn : Except String Unit) (has_client : Bool)
    (backend : Nat → Except String String) (query : String)
    (results : List SearchResult) (thr : ℚ)
    (h : search_relevant_context true (Except.ok ()) results thr = []) :
    rag_generate_response gen_exn has_client backend query
        (search_relevant_context true (Except.ok ()) results thr)
      = (no_info_response, 0, [])
    ∧ no_info_response.answer = some no_info_answer
    ∧ no_info_response.sources = []
    ∧ no_info_response.confidence = 0
    ∧ (∀ (g : Except String Unit) (hc : Bool) (b b2 : Nat → Except String String),
        rag_generate_response g hc b query [] = rag_generate_response g hc b2 query []
        ∧ rag_generate_response g hc b query [] = (no_info_response, 0, [])) := by
  rw [h]
  exact ⟨rfl, rfl, rfl, rfl, fun g hc b b2 => ⟨rfl, rfl⟩⟩

/-- Witness for C4: a single result scored 0.05 is filtered out at
threshold 0.1 and the no-information response is returned without
invoking the backend. -/
theorem C4_no_context_response_witness :
    rag_generate_response (Except.ok ()) true (fun _ => Except.ok "ans") "query"
        (search_relevant_context true (Except.ok ()) c4_results (1 / 10))
      = (no_info_response, 0, []) :=
  (C4_no_context_response (Except.ok ()) true (fun _ => Except.ok "ans") "query"
    c4_results (1 / 10)
    (by norm_num [search_relevant_context, relevant_filter_loop, c4_results])).1

/-- C9: constructed with no api-key argument and no environment key,
the client is None, and generate_response then immediately returns the
fallback string for the query with zero backend calls and zero retry
sleeps, whatever the backend, query and retry bound. -/
theorem C9_no_key_demo_mode (groq_ok : Bool) (backend : Nat → Except String String)
    (query : String) (max_retries : Nat) :
    init_client none none groq_ok = false
    ∧ llm_generate_response (init_client none none groq_ok) backend query max_retries
        = (some (get_fallback_response query), 0, []) :=
  ⟨rfl, rfl⟩

/-- C10: on the empty input batch generate_embeddings returns an empty
array and performs no model encoding, no cache read and no cache
write. -/
theorem C10_empty_batch (model_name : String) (batch_size : Nat)
    (hash_hex : String → String) (cache_enabled : Bool)
    (store : String → Option CacheEntry) (encode : List String → List (List ℚ))
    (use_cache : Bool) :
    generate_embeddings model_name batch_size hash_hex cache_enabled store encode use_cache []
      = ([], { encode_calls := 0, cache_reads := 0, cache_writes := 0 }) :=
  rfl

/-- A nonempty string stays nonempty after appending. -/
theorem append_ne_empty_left (s t : String) (h : s ≠ "") : s ++ t ≠ "" := by
  intro hc
  apply h
  have hdata := congrArg String.data hc
  rw [String.data_append] at hdata
  have h1 := (List.append_eq_nil.mp hdata).1
  apply String.ext
  rw [h1]

/-- C5: if the generation backend raises on every attempt then, for any
positive configured retry bound (3 by default), generate_response makes
exactly that many backend calls with exponentially growing back-off
sleeps between attempts, and returns the non-empty fallback string
selected by keyword match against the fixed table; it is the generic
contact-support message whenever no table keyword occurs in the
query. -/
theorem C5_retry_and_fallback (query : String) (backend : Nat → Except String String)
    (max_retries : Nat) (hmr : 1 ≤ max_retries)
    (hb : ∀ n, ∃ e, backend n = Except.error e) :
    llm_generate_response true backend query max_retries
        = (some (get_fallback_response query), max_retries,
           (List.range (max_retries - 1)).map (fun a => 2 ^ a))
    ∧ get_fallback_response query ≠ ""
    ∧ (get_fallback_response query = generic_fallback
        ∨ ∃ kv, kv ∈ fallback_responses
            ∧ get_fallback_response query = tech_difficulties_lead ++ kv.2)
    ∧ ((∀ kv ∈ fallback_responses, ¬ (str_contains (to_lower_str query) kv.1 = true)) →
        get_fallback_response query = generic_fallback) := by
  refine ⟨?_, ?_, ?_, ?_⟩
  · have h := retry_loop_all_fail backend (get_fallback_response query) max_retries hb
      max_retries 0 hmr (by omega)
    have hstep : llm_generate_response true backend query max_retries
        = retry_loop backend (get_fallback_response query) max_retries 0 max_retries := rfl
    rw [hstep, h, List.range_eq_range']
  · simp only [get_fallback_response]
    cases hf : fallback_responses.find? (fun kv => str_contains (to_lower_str query) kv.1) with
    | none => decide
    | some kv => exact append_ne_empty_left tech_difficulties_lead kv.2 (by decide)
  · simp only [get_fallback_response]
    cases hf : fallback_responses.find? (fun kv => str_contains (to_lower_str query) kv.1) with
    | none => exact Or.inl rfl
    | some kv => exact Or.inr ⟨kv, List.mem_of_find?_eq_some hf, rfl⟩
  · intro hall
    have hnone :
        fallback_responses.find? (fun kv => str_contains (to_lower_str query) kv.1) = none :=
      List.find?_eq_none.mpr hall
    simp only [get_fallback_response]
    rw [hnone]

/-- Witness for C5: a backend that always raises, queried with a text
containing no table keyword, at the default retry bound 3: three calls,
sleeps 1 and 2, generic contact-support fallback. -/
theorem C5_retry_and_fallback_witness :
    llm_generate_response true (fun _ => Except.error "boom") "weather today" 3
        = (some (get_fallback_response "weather today"), 3,
           (List.range 2).map (fun a => 2 ^ a))
    ∧ get_fallback_response "weather today" = generic_fallback := by
  have h := C5_retry_and_fallback "weather today" (fun _ => Except.error "boom") 3
    (by omega) (fun n => ⟨"boom", rfl⟩)
  exact ⟨h.1, h.2.2.2 (by decide)⟩

/-- With a failing metadata step, answer_question returns the
unexpected-error response carrying the error string. -/
theorem answer_question_meta_error (env : QueryEnv) (question : String) (e : String)
    (hm : env.meta_exn = Except.error e) :
    (answer_question env question).1
      = { answer := some unexpected_error_answer, sources := [], confidence := 0,
          chunks_used := none, error := some e, query := none, pipeline_version := none,
          total_documents := none, total_chunks := none } := by
  unfold answer_question
  rw [hm]

/-- With a failing query embedding (and a healthy boundary),
answer_question returns the no-information response decorated with
pipeline metadata, and makes no backend call. -/
theorem answer_question_search_failure (env : QueryEnv) (question : String) (e : String)
    (hm : env.meta_exn = Except.ok ()) (he : env.embed_outcome = Except.error e) :
    answer_question env question
      = ({ no_info_response with
            query := some question
            pipeline_version := some "1.0.0"
            total_documents := some env.total_documents
            total_chunks := some env.total_chunks }, 0, []) := by
  have hchunks : search_relevant_context env.is_init env.embed_outcome
      env.search_results (1 / 10) = [] := by
    cases hi : env.is_init with
    | false => rfl
    | true =>
      rw [he]
      rfl
  unfold answer_question
  rw [hm, hchunks]
  rfl

/-- With a failing generation stage on a non-empty context,
answer_question returns the error-describing answer with zero
confidence. -/
theorem answer_question_gen_failure (env : QueryEnv) (question : String) (e : String)
    (hm : env.meta_exn = Except.ok ()) (hg : env.gen_exn = Except.error e)
    (hne : search_relevant_context env.is_init env.embed_outcome
        env.search_results (1 / 10) ≠ []) :
    answer_question env question
      = ({ no_info_response with
            answer := some (gen_error_lead ++ e)
            query := some question
            pipeline_version := some "1.0.0"
            total_documents := some env.total_documents
            total_chunks := some env.total_chunks }, 0, []) := by
  have hempty : (search_relevant_context env.is_init env.embed_outcome
      env.search_results (1 / 10)).isEmpty = false := by
    cases hx : search_relevant_context env.is_init env.embed_outcome
        env.search_results (1 / 10) with
    | nil => exact absurd hx hne
    | cons a l => rfl
  simp only [answer_question, rag_generate_response]
  rw [hempty, hm, hg]
  simp only [Bool.false_eq_true, if_false]
  rfl

/-- C1 counterexample: in a query environment whose only failure is the
query-embedding call (the search stage fails for this query),
answer_question returns the fixed no-information response: its error
field is absent and its answer is not an error description, refuting
the claim that every stage failure yields a response carrying an error
description (the confidence is 0.0, as claimed). -/
theorem C1_counterexample :
    c1_env.embed_outcome = Except.error "embedding model failure"
    ∧ (answer_question c1_env "How do I apply for a marriage license?").1.error = none
    ∧ carries_error_description
        (answer_question c1_env "How do I apply for a marriage license?").1 = false
    ∧ (answer_question c1_env "How do I apply for a marriage license?").1.answer
        = some no_info_answer
    ∧ (answer_question c1_env "How do I apply for a marriage license?").1.confidence = 0 :=
  ⟨rfl, rfl, rfl, rfl, rfl⟩

/-- C1, amended: answer_question always returns a response object with
an answer string (no exception escapes); a failure caught at the
orchestrator boundary yields an error field, an error-describing answer
and confidence 0.0; a failure of the search stage yields the fixed
no-information response (confidence 0.0, zero backend calls) without
any error description; a failure inside the generation stage yields an
error-describing answer and confidence 0.0. -/
theorem C1_error_handling_amended (env : QueryEnv) (question : String) :
    ((answer_question env question).1.answer).isSome = true
    ∧ (∀ e, env.meta_exn = Except.error e →
        (answer_question env question).1.error = some e
        ∧ (answer_question env question).1.confidence = 0
        ∧ carries_error_description (answer_question env question).1 = true)
    ∧ (∀ e, env.meta_exn = Except.ok () → env.embed_outcome = Except.error e →
        (answer_question env question).1
          = { no_info_response with
              query := some question
              pipeline_version := some "1.0.0"
              total_documents := some env.total_documents
              total_chunks := some env.total_chunks }
        ∧ (answer_question env question).1.confidence = 0
        ∧ (answer_question env question).2.1 = 0)
    ∧ (∀ e, env.meta_exn = Except.ok () → env.gen_exn = Except.error e →
        search_relevant_context env.is_init env.embed_outcome env.search_results (1 / 10)
            ≠ [] →
        (answer_question env question).1.answer = some (gen_error_lead ++ e)
        ∧ (answer_question env question).1.confidence = 0
        ∧ carries_error_description (answer_question env question).1 = true) := by
  refine ⟨?_, ?_, ?_, ?_⟩
  · cases hm : env.meta_exn with
    | error e => simp [answer_question, hm]
    | ok u =>
      cases u
      simp only [answer_question, hm]
      exact rag_generate_response_isSome env.gen_exn env.has_client env.backend question _
  · intro e hm
    refine ⟨?_, ?_, ?_⟩ <;> simp [answer_question, hm, carries_error_description]
  · intro e hm he
    have h := answer_question_search_failure env question e hm he
    exact ⟨by rw [h], by rw [h]; rfl, by rw [h]⟩
  · intro e hm hg hne
    have h := answer_question_gen_failure env question e hm hg hne
    have hpre : gen_error_lead.toList.isPrefixOf (gen_error_lead ++ e).toList = true := by
      rw [List.isPrefixOf_iff_prefix]
      show gen_error_lead.data <+: (gen_error_lead ++ e).data
      rw [String.data_append]
      exact List.prefix_append _ _
    refine ⟨by rw [h], by rw [h]; rfl, ?_⟩
    rw [h]
    simp only [carries_error_description, hpre, Option.isSome_none, Bool.false_or,
      Bool.true_or, Bool.or_true]

/-- Witness for C1 (amended): a concrete environment failing only at
the metadata-attachment step yields the error field and zero
confidence. -/
theorem C1_error_handling_amended_witness :
    (answer_question c1_env_meta "test query").1.error = some "pipeline metadata failure"
    ∧ (answer_question c1_env_meta "test query").1.confidence = 0 := by
  have h := (C1_error_handling_amended c1_env_meta "test query").2.1
    "pipeline metadata failure" rfl
  exact ⟨h.1, h.2.1⟩

/-- C6 counterexample: a cache entry whose stored model name and stored
text count match the current configuration but whose stored vector
dimension (999) differs from the current model dimension (384) is still
returned as a hit by _load_from_cache, refuting the claim that a
dimension mismatch prevents the entry from being returned. -/
theorem C6_counterexample :
    c6_entry.embedding_dimension = 999
    ∧ ¬ (c6_entry.embedding_dimension = 384)
    ∧ load_from_cache c6_hash c6_store "all-MiniLM-L6-v2" ["hello ottawa"]
        = some c6_entry.embeddings :=
  ⟨rfl, by decide, rfl⟩

/-- C6, amended: the cache key is the truncated cryptographic hash of
the order-sensitive pipe-joined concatenation of the batch texts and
the model identity (permuting the batch changes the hashed text);
_save_to_cache stores the model identity, the batch length and the
vector dimension alongside the vectors; and _load_from_cache returns a
hit exactly when an entry exists under the derived key whose stored
model identity equals the current model and whose stored text count
equals the batch length — the stored vector dimension is not part of
the check. -/
theorem C6_cache_key_and_hit (hash_hex : String → String)
    (store : String → Option CacheEntry) (model_name : String) (texts : List String)
    (dim : Nat) (embs : List (List ℚ)) :
    generate_cache_key hash_hex texts model_name
        = String.mk
            ((hash_hex (String.intercalate "|" texts ++ "|" ++ model_name)).toList.take 16)
    ∧ String.intercalate "|" ["a", "b"] ≠ String.intercalate "|" ["b", "a"]
    ∧ (∀ out, load_from_cache hash_hex store model_name texts = some out ↔
        ∃ entry, store (generate_cache_key hash_hex texts model_name) = some entry
          ∧ entry.model_name = model_name ∧ entry.text_count = texts.length
          ∧ out = entry.embeddings)
    ∧ (save_to_cache hash_hex model_name dim texts embs).2.model_name = model_name
    ∧ (save_to_cache hash_hex model_name dim texts embs).2.text_count = texts.length
    ∧ (save_to_cache hash_hex model_name dim texts embs).2.embedding_dimension = dim := by
  refine ⟨rfl, by decide, ?_, rfl, rfl, rfl⟩
  intro out
  simp only [load_from_cache]
  cases hs : store (generate_cache_key hash_hex texts model_name) with
  | none => simp
  | some entry =>
    dsimp only
    by_cases hcond : entry.model_name = model_name ∧ entry.text_count = texts.length
    · rw [if_pos hcond]
      constructor
      · intro hout
        exact ⟨entry, rfl, hcond.1, hcond.2, (Option.some.inj hout).symm⟩
      · rintro ⟨e2, he2, -, -, hout⟩
        obtain rfl : entry = e2 := Option.some.inj he2
        rw [hout]
    · rw [if_neg hcond]
      constructor
      · intro h
        exact absurd h (by simp)
      · rintro ⟨e2, he2, h1, h2, -⟩
        obtain rfl : entry = e2 := Option.some.inj he2
        exact absurd ⟨h1, h2⟩ hcond

/-- Witness for C6 (amended): the mismatching-dimension entry is
returned because model name and text count match. -/
theorem C6_cache_key_and_hit_witness :
    load_from_cache c6_hash c6_store "all-MiniLM-L6-v2" ["hello ottawa"] = some [[1, 2]] := by
  have h := (C6_cache_key_and_hit c6_hash c6_store "all-MiniLM-L6-v2" ["hello ottawa"]
    384 []).2.2.1 [[1, 2]]
  exact h.mpr ⟨c6_entry, rfl, rfl, rfl, rfl⟩

/-- C8 counterexample: with minimum chunk length 3 and a splitter
producing a 2-character candidate followed by a 4-character candidate,
the document keeps exactly one chunk whose chunk_index is 1, so the
retained ordinals are not a 0-based contiguous sequence. -/
theorem C8_counterexample :
    (create_chunks (fun s => s) demo_split 3 ["abcdef"]).map (fun c => c.chunk_index) = [1]
    ∧ ¬ ([1] = List.range 1) :=
  ⟨rfl, by decide⟩

/-- C8, amended: create_chunks numbers chunk_index by the candidate
chunk position in the splitter output of the document, counted before
the minimum-length filter: for a single-document corpus the retained
indices are exactly the positions of the sufficiently long candidates,
a strictly increasing sequence, and they form the contiguous 0-based
range exactly described by the claim when no candidate is discarded. -/
theorem C8_chunk_index (clean : String → String) (split : String → List String)
    (min_len : Nat) (d : String) (hd : min_len ≤ (clean d).length) :
    (create_chunks clean split min_len [d]).map (fun c => c.chunk_index)
        = selected_from min_len 0 (split (clean d))
    ∧ (∀ (ml i : Nat) (cands : List String),
        List.Chain' (· < ·) (selected_from ml i cands))
    ∧ (∀ (ml : Nat) (cands : List String), (∀ t ∈ cands, ml ≤ t.length) →
        selected_from ml 0 cands = List.range cands.length) := by
  refine ⟨?_, fun ml i cands => selected_from_chain ml cands i, ?_⟩
  · have hnot : ¬ ((clean d).length < min_len) := by omega
    simp only [create_chunks, create_chunks_aux]
    rw [if_neg hnot]
    simp only [List.append_nil]
    exact process_candidates_indices min_len 0 (split (clean d)) 0 0
  · intro ml cands hall
    rw [selected_from_all ml cands 0 hall, List.range_eq_range']

/-- Witness for C8 (amended): the demo splitter output gives retained
index list selected_from 3 0 of the candidates, namely the single
index 1. -/
theorem C8_chunk_index_witness :
    (create_chunks (fun s => s) demo_split 3 ["abcdef"]).map (fun c => c.chunk_index)
      = selected_from 3 0 (demo_split "abcdef") :=
  (C8_chunk_index (fun s => s) demo_split 3 "abcdef" (by decide)).1

end OttawaRag
